import Mathlib

/-!
Shallow embedding of the two components of the repository:

* `Calc` embeds `src/examples/projects/python/calculator.py`: the `Calculator`
  class with its mutable `history` list, the four arithmetic methods, the
  `DivisionByZeroError` exception and `clear_history`.  Numbers are modelled
  as rationals (exact arithmetic, covering Python ints and the exact value of
  true division); a method that mutates `self` is modelled as a function from
  the pre-state to a (return value, post-state) pair, and a method that can
  raise returns an `Except` value paired with the post-state, the post-state
  being the unchanged pre-state when the exception is raised.

* `MathUtils` embeds `src/examples/python-math-utils/math_utils.py` exactly as
  written there, including the deliberate bugs that the file marks with
  `BUG` comments (factorial base case returning 0, the gcd loop replacing
  `(a, b)` by `(b, a + b)`, fibonacci multiplying the two recursive calls,
  power adding instead of multiplying).  The non-terminating gcd loop is
  modelled with explicit fuel.
-/

namespace Calc

/-- Rendering of a numeric operand inside an f-string record. -/
def numStr (q : ℚ) : String := toString q

/-- The `DivisionByZeroError` exception class, carrying its message. -/
inductive CalcError where
  | divisionByZero (msg : String)
deriving DecidableEq

/-- Calculator state: the `self.history` list created empty in `__init__`. -/
structure Calculator where
  history : List String
deriving DecidableEq

/-- `Calculator()` constructs a calculator with empty history. -/
def Calculator.init : Calculator := ⟨[]⟩

/-- `add`: result is `a + b`, appends the record `a + b = result`, returns result. -/
def Calculator.add (c : Calculator) (a b : ℚ) : ℚ × Calculator :=
  let result := a + b
  (result, ⟨c.history ++ [numStr a ++ " + " ++ numStr b ++ " = " ++ numStr result]⟩)

/-- `subtract`: result is `a - b`, appends the record `a - b = result`, returns result. -/
def Calculator.subtract (c : Calculator) (a b : ℚ) : ℚ × Calculator :=
  let result := a - b
  (result, ⟨c.history ++ [numStr a ++ " - " ++ numStr b ++ " = " ++ numStr result]⟩)

/-- `multiply`: result is `a * b`, appends the record `a * b = result`, returns result. -/
def Calculator.multiply (c : Calculator) (a b : ℚ) : ℚ × Calculator :=
  let result := a * b
  (result, ⟨c.history ++ [numStr a ++ " * " ++ numStr b ++ " = " ++ numStr result]⟩)

/-- `divide`: raises `DivisionByZeroError("Cannot divide by zero")` when `b == 0`
(leaving the state untouched); otherwise computes `a / b` by true division,
appends the record `a / b = result` and returns the result. -/
def Calculator.divide (c : Calculator) (a b : ℚ) : Except CalcError ℚ × Calculator :=
  if b = 0 then (.error (.divisionByZero "Cannot divide by zero"), c)
  else
    let result := a / b
    (.ok result, ⟨c.history ++ [numStr a ++ " / " ++ numStr b ++ " = " ++ numStr result]⟩)

/-- `clear_history`: sets `self.history` to the empty list and returns `[]`. -/
def Calculator.clear_history (_c : Calculator) : List String × Calculator :=
  (([] : List String), ⟨[]⟩)

/-- One call in a sequence of Calculator method calls. -/
inductive Op where
  | add (a b : ℚ)
  | subtract (a b : ℚ)
  | multiply (a b : ℚ)
  | divide (a b : ℚ)
  | clear

/-- State reached after one call.  A `divide` whose divisor is zero raises, so
the state after the call is the unchanged pre-state. -/
def runOp (c : Calculator) : Op → Calculator
  | .add a b => (c.add a b).2
  | .subtract a b => (c.subtract a b).2
  | .multiply a b => (c.multiply a b).2
  | .divide a b => (c.divide a b).2
  | .clear => c.clear_history.2

/-- State reached after a sequence of calls. -/
def runOps (c : Calculator) (ops : List Op) : Calculator := ops.foldl runOp c

/-- Running count of successful arithmetic calls since the most recent clear:
a clear resets it, a divide by zero leaves it, every other call adds one. -/
def succStep (n : Nat) : Op → Nat
  | .clear => 0
  | .divide _ b => if b = 0 then n else n + 1
  | .add _ _ => n + 1
  | .subtract _ _ => n + 1
  | .multiply _ _ => n + 1

/-- Number of successful arithmetic calls since construction or the most
recent clear, over a whole call sequence. -/
def succCount (ops : List Op) : Nat := ops.foldl succStep 0

end Calc

namespace MathUtils

/-- `factorial` as written in `math_utils.py`: `n == 0` returns `0` (the bug the
file itself flags), `n < 0` raises `ValueError("Factorial is not defined for
negative numbers")`, otherwise `n * factorial(n - 1)`. -/
def factorial (n : Int) : Except String Int :=
  if _h0 : n = 0 then .ok 0
  else if _hneg : n < 0 then .error "Factorial is not defined for negative numbers"
  else (factorial (n - 1)).map fun r => n * r
termination_by n.toNat
decreasing_by omega

/-- The body of the `is_prime` loop `for i in range(2, n - 1)`: the list of
candidate divisors `2, 3, ..., n - 2` (empty when `n <= 3`). -/
def primeCandidates (m : Nat) : List Nat := List.range' 2 (m - 3)

/-- `is_prime` as written in `math_utils.py`: `False` for `n < 2`, otherwise
scans `i` over `range(2, n - 1)` and returns `False` on the first `i` with
`n % i == 0`, else `True`. -/
def is_prime (n : Int) : Bool :=
  if n < 2 then false
  else !(primeCandidates n.toNat).any fun i => n.toNat % i == 0

/-- One pass of the buggy gcd loop body `a, b = b, a + b`, run with explicit
fuel; the Python `while b:` loop exits only when `b == 0`, and `none` means the
fuel ran out with the loop still running. -/
def gcdLoop (fuel : Nat) (a b : Int) : Option Int :=
  match fuel with
  | 0 => if b = 0 then some a else none
  | f + 1 => if b = 0 then some a else gcdLoop f b (a + b)

/-- `fibonacci` as written in `math_utils.py`: returns `n` when `n <= 1`, and
otherwise the product `fibonacci(n-1) * fibonacci(n-2)` (the bug the file
itself flags: multiplication in place of addition). -/
def fibonacci : Nat → Nat
  | 0 => 0
  | 1 => 1
  | n + 2 => fibonacci (n + 1) * fibonacci n

/-- The positive-exponent loop of `power`: `result = 1`, then
`result += base` once per iteration (the bug the file itself flags:
addition in place of multiplication). -/
def addLoop (base : Int) : Nat → Int
  | 0 => 1
  | k + 1 => addLoop base k + base

/-- `power` as written in `math_utils.py`: `1` for `exponent == 0`; for
`exponent < 0` the Python expression `base ** exponent`, whose exact value is
the rational `base ^ exponent`; otherwise the additive loop. -/
def power (base exponent : Int) : ℚ :=
  if exponent = 0 then 1
  else if exponent < 0 then (base : ℚ) ^ exponent
  else ((addLoop base exponent.toNat : Int) : ℚ)

end MathUtils

namespace Calc

lemma runOp_history_length (c : Calculator) (op : Op) :
    (runOp c op).history.length = succStep c.history.length op := by
  cases op with
  | add a b => simp [runOp, Calculator.add, succStep]
  | subtract a b => simp [runOp, Calculator.subtract, succStep]
  | multiply a b => simp [runOp, Calculator.multiply, succStep]
  | divide a b =>
      by_cases hb : b = 0 <;> simp [runOp, Calculator.divide, succStep, hb]
  | clear => simp [runOp, Calculator.clear_history, succStep]

lemma runOps_history_length (ops : List Op) :
    ∀ c : Calculator, (runOps c ops).history.length = ops.foldl succStep c.history.length := by
  induction ops with
  | nil => intro c; rfl
  | cons op ops ih =>
      intro c
      have h1 : runOps c (op :: ops) = runOps (runOp c op) ops := rfl
      rw [h1, ih (runOp c op), List.foldl_cons, runOp_history_length]

end Calc

namespace MathUtils

lemma factorial_nonneg_ok_zero : ∀ k : Nat, factorial (k : Int) = .ok 0 := by
  intro k
  induction k with
  | zero => simp [factorial]
  | succ k ih =>
      rw [factorial]
      have h0 : ((k : Int) + 1) ≠ 0 := by omega
      have h1 : ¬ ((k : Int) + 1 < 0) := by omega
      have h2 : ((k : Int) + 1) - 1 = (k : Int) := by ring
      simp only [Nat.cast_succ, h0, h1, h2, dif_neg, not_false_iff, ih, Except.map]
      simp

/-- Claim C5 (code bug): the source `factorial` returns `0` at `n = 0` and
hence `0` at every nonnegative `n`, against its own BUG comment and its test
suite, which require `factorial(0) == 1` and `factorial(5) == 120`; the
negative-input branch does raise as the claim states. -/
theorem factorial_base_case_bug :
    factorial 0 = .ok 0 ∧
    factorial 5 = .ok 0 ∧
    factorial (-1) = .error "Factorial is not defined for negative numbers" := by
  refine ⟨factorial_nonneg_ok_zero 0, ?_, ?_⟩
  · have h := factorial_nonneg_ok_zero 5
    norm_num at h
    exact h
  · rw [factorial]
    norm_num

lemma gcdLoop_pos_runs_forever :
    ∀ (fuel : Nat) (a b : Int), 0 ≤ a → 0 < b → gcdLoop fuel a b = none := by
  intro fuel
  induction fuel with
  | zero =>
      intro a b _ hb
      simp [gcdLoop]
      omega
  | succ f ih =>
      intro a b ha hb
      have hbne : ¬ (b = 0) := by omega
      simp only [gcdLoop, hbne, if_false]
      exact ih b (a + b) (by omega) (by omega)

/-- Claim C6 (code bug): the source gcd loop replaces `(a, b)` by `(b, a + b)`
instead of `(b, a mod b)`, so on positive inputs such as `gcd(12, 8)` the
`while b:` loop never terminates (for every fuel bound it is still running),
against the docstring, the BUG comment and the tests, which require the
Euclidean algorithm and `gcd(12, 8) == 4`; the `b == 0` path does return `a`
as the claim states. -/
theorem gcd_additive_loop_bug :
    (∀ fuel : Nat, gcdLoop fuel 12 8 = none) ∧
    (∀ (fuel : Nat) (x : Int), gcdLoop fuel x 0 = some x) := by
  constructor
  · intro fuel
    exact gcdLoop_pos_runs_forever fuel 12 8 (by norm_num) (by norm_num)
  · intro fuel x
    cases fuel <;> simp [gcdLoop]

/-- Claim C7 (code bug): the source `fibonacci` multiplies the two recursive
calls, so `fibonacci(2) = 1 * 0 = 0` and every later term is `0`, against the
BUG comment and the tests, which require `fibonacci(2) == 1` and
`fibonacci(7) == 13`; the base cases `fibonacci(0) = 0` and `fibonacci(1) = 1`
do hold. -/
theorem fibonacci_multiplication_bug :
    fibonacci 0 = 0 ∧ fibonacci 1 = 1 ∧ fibonacci 2 = 0 ∧ fibonacci 7 = 0 := by
  refine ⟨rfl, rfl, rfl, ?_⟩
  decide

/-- Claim C8 (code bug): the source `power` loop does `result += base`, so
`power(2, 3) = 1 + 2 + 2 + 2 = 7`, against the BUG comment and the tests,
which require `power(2, 3) == 8`; the `exponent == 0` and negative-exponent
branches return `1` and `0.25` as the claim states. -/
theorem power_additive_loop_bug :
    power 2 3 = 7 ∧ power 5 0 = 1 ∧ power 2 (-2) = (1 : ℚ) / 4 := by
  refine ⟨?_, ?_, ?_⟩
  · norm_num [power, addLoop]
  · norm_num [power]
  · norm_num [power]

lemma primeCandidates_loop_iff (m : Nat) (hm : 2 ≤ m) :
    ((primeCandidates m).any fun i => m % i == 0) = false ↔ Nat.Prime m := by
  have hmem : ∀ i : Nat, i ∈ primeCandidates m ↔ 2 ≤ i ∧ i < 2 + (m - 3) := by
    intro i
    exact List.mem_range'_1
  rw [List.any_eq_false]
  constructor
  · intro h
    rcases Nat.lt_or_ge m 4 with h4 | h4
    · interval_cases m
      · exact Nat.prime_two
      · exact Nat.prime_three
    · rw [Nat.prime_def_lt']
      refine ⟨hm, fun d h2 hdm hdvd => ?_⟩
      by_cases hd : d < 2 + (m - 3)
      · have hdmem : d ∈ primeCandidates m := (hmem d).mpr ⟨h2, hd⟩
        have hmod : m % d = 0 := Nat.dvd_iff_mod_eq_zero.mp hdvd
        have := h d hdmem
        simp [hmod] at this
      · have hsub : d ∣ (m - d) := Nat.dvd_sub' hdvd dvd_rfl
        have hone : m - d = 1 := by omega
        rw [hone] at hsub
        have := Nat.dvd_one.mp hsub
        omega
  · intro hp i hi
    rcases (hmem i).mp hi with ⟨h2, hlt⟩
    have hnd : ¬ i ∣ m := by
      intro hdvd
      rcases hp.eq_one_or_self_of_dvd i hdvd with h1 | hself <;> omega
    have : ¬ (m % i = 0) := fun hmod =>
      hnd (Nat.dvd_iff_mod_eq_zero.mpr hmod)
    simp [this]

/-- Claim C9: the source `is_prime` returns `false` for `n < 2`, and for
`n ≥ 2` returns `true` exactly when `n` has no divisor `d` with
`2 ≤ d ≤ sqrt n`: scanning the divisor candidates up to `n - 2` instead of up
to `sqrt n` costs time but never changes the returned value. -/
theorem is_prime_matches_sqrt_divisor_spec (n : Int) :
    (n < 2 → is_prime n = false) ∧
    (2 ≤ n → (is_prime n = true ↔
      ∀ d : Nat, 2 ≤ d → d ≤ Nat.sqrt n.toNat → ¬ d ∣ n.toNat)) := by
  constructor
  · intro h
    simp [is_prime, h]
  · intro h
    have hn : ¬ (n < 2) := by omega
    have hm : 2 ≤ n.toNat := by omega
    rw [is_prime, if_neg hn, Bool.not_eq_true', primeCandidates_loop_iff n.toNat hm,
      Nat.prime_def_le_sqrt]
    constructor
    · intro hpair d h2 hsq
      exact hpair.2 d h2 hsq
    · intro hall
      exact ⟨hm, hall⟩

/-- Witness for C9: the first part applied at `n = 1` and the second at
`n = 97`. -/
theorem is_prime_matches_sqrt_divisor_spec_witness :
    is_prime 1 = false ∧
    (is_prime 97 = true ↔
      ∀ d : Nat, 2 ≤ d → d ≤ Nat.sqrt (Int.toNat 97) → ¬ d ∣ Int.toNat 97) :=
  ⟨(is_prime_matches_sqrt_divisor_spec 1).1 (by norm_num),
   (is_prime_matches_sqrt_divisor_spec 97).2 (by norm_num)⟩

end MathUtils

namespace Calc

/-- Claim C1: for every `a`, `b` and calculator state, `divide` with `b ≠ 0`
returns `a / b` under true division and appends one record, while with `b = 0`
it raises `DivisionByZeroError` with the message "Cannot divide by zero" and
leaves the history exactly as it was before the call. -/
theorem divide_true_division_and_zero_raises (a b : ℚ) (c : Calculator) :
    (b ≠ 0 → c.divide a b =
      (.ok (a / b),
        ⟨c.history ++ [numStr a ++ " / " ++ numStr b ++ " = " ++ numStr (a / b)]⟩)) ∧
    (b = 0 → c.divide a b = (.error (.divisionByZero "Cannot divide by zero"), c)) := by
  constructor
  · intro hb
    simp [Calculator.divide, hb]
  · intro hb
    simp [Calculator.divide, hb]

/-- Witness for C1: `divide(7, 2)` succeeds with the true quotient `3.5`, and
`divide(1, 0)` raises, leaving a fresh calculator unchanged. -/
theorem divide_true_division_and_zero_raises_witness :
    Calculator.init.divide 7 2 =
      (.ok ((7 : ℚ) / 2),
        ⟨Calculator.init.history ++
          [numStr 7 ++ " / " ++ numStr 2 ++ " = " ++ numStr ((7 : ℚ) / 2)]⟩) ∧
    (7 : ℚ) / 2 = 3.5 ∧
    Calculator.init.divide 1 0 =
      (.error (.divisionByZero "Cannot divide by zero"), Calculator.init) :=
  ⟨(divide_true_division_and_zero_raises 7 2 Calculator.init).1 (by norm_num),
   by norm_num,
   (divide_true_division_and_zero_raises 1 0 Calculator.init).2 rfl⟩

/-- Claim C2: for every `a`, `b` and calculator state, `add`, `subtract` and
`multiply` return `a + b`, `a - b`, `a * b` and each appends exactly the one
matching record to the history; all three are total (no failure mode). -/
theorem add_subtract_multiply_results_and_records (a b : ℚ) (c : Calculator) :
    c.add a b =
      (a + b, ⟨c.history ++ [numStr a ++ " + " ++ numStr b ++ " = " ++ numStr (a + b)]⟩) ∧
    c.subtract a b =
      (a - b, ⟨c.history ++ [numStr a ++ " - " ++ numStr b ++ " = " ++ numStr (a - b)]⟩) ∧
    c.multiply a b =
      (a * b, ⟨c.history ++ [numStr a ++ " * " ++ numStr b ++ " = " ++ numStr (a * b)]⟩) :=
  ⟨rfl, rfl, rfl⟩

/-- Claim C3: starting from a freshly constructed calculator, after any
sequence of calls the history length equals the number of successful
arithmetic calls since construction or the most recent clear; a raising
divide does not count and does not append. -/
theorem history_length_counts_successes (ops : List Op) :
    (runOps Calculator.init ops).history.length = succCount ops :=
  runOps_history_length ops Calculator.init

/-- Claim C4: on every calculator state, `clear_history` resets the history to
empty and returns the now-empty history, and doing it twice in a row leaves
the history empty both times. -/
theorem clear_history_empties_and_idempotent (c : Calculator) :
    c.clear_history = ([], ⟨[]⟩) ∧
    c.clear_history.2.history = [] ∧
    c.clear_history.2.clear_history = ([], ⟨[]⟩) ∧
    c.clear_history.2.clear_history.2.history = [] :=
  ⟨rfl, rfl, rfl, rfl⟩

/-- Claim C10: for every `a`, `b ≠ 0` and calculator state, a successful
`divide` appends exactly one record, formatted `a / b = result` where `result`
is the returned quotient. -/
theorem divide_appends_slash_record (a b : ℚ) (c : Calculator) (hb : b ≠ 0) :
    (c.divide a b).1 = .ok (a / b) ∧
    (c.divide a b).2.history =
      c.history ++ [numStr a ++ " / " ++ numStr b ++ " = " ++ numStr (a / b)] := by
  simp [Calculator.divide, hb]

/-- Witness for C10: concrete successful division `divide(7, 2)` on a fresh
calculator appends the slash-formatted record. -/
theorem divide_appends_slash_record_witness :
    (Calculator.init.divide 7 2).1 = .ok ((7 : ℚ) / 2) ∧
    (Calculator.init.divide 7 2).2.history =
      Calculator.init.history ++
        [numStr 7 ++ " / " ++ numStr 2 ++ " = " ++ numStr ((7 : ℚ) / 2)] :=
  divide_appends_slash_record 7 2 Calculator.init (by norm_num)

end Calc
